import Mathlib

/-!
Shallow embedding of the filename-parsing and cross-field validation engine of
the submittal-packager repository (src/submittal_packager/{models,config,
validators,packager}.py), together with theorems settling the frozen claims.

Modelling conventions:
* Python strings are Lean `String`s; the ASCII case maps used by the code
  (`.lower()`, `.upper()`, `.isdigit()`) are modelled with the corresponding
  ASCII helpers.
* Python truthiness of optional strings (`if s:`) is `optTruthy`; `a or b`
  on strings is `pyOrStr`.
* The configured regular expression is an external collaborator (spec section 6
  treats the configuration provider and the regex engine as outside the core),
  so a compiled pattern is embedded as its matching function
  `String -> Option RegexGroups`, returning the named capture groups
  `des, stage, discipline, sheet_type, sheet_range, ext` on a match.
* Fallible Python code is embedded in `Except String`; a `.error` value models
  an uncaught exception escaping the function.
* File-system and PDF collaborators (`stat`, checksum, `pdf_page_count`,
  `pdf_extract_text`) are abstracted as a `FileOracle`.
* The slots dataclasses of models.py are embedded with exactly their declared
  fields.  The source writes attributes outside those slots:
  validators.py:110 assigns `parsed.stage_key` (and 138
  `parsed.sheet_range_raw`), absent from `ParsedFilename`, so the assignment
  raises AttributeError on every pattern-matched filename; and
  packager.py:110-124 passes `checksum_algorithm`/`source_modified` keyword
  arguments absent from `ManifestEntry`, a TypeError.  Both are modelled as
  `.error` outcomes at the corresponding program points, making everything
  downstream of them unreachable, exactly as in the source.
-/

namespace SubmittalPackager

/-- Severity for validation messages (models.MessageLevel). -/
inductive MessageLevel where
  | error
  | warning
  | info
deriving DecidableEq, Repr

/-- A validation message (models.ValidationMessage). -/
structure ValidationMessage where
  level : MessageLevel
  text : String
deriving DecidableEq, Repr

/-- Result of parsing a filename (models.ParsedFilename), with exactly the
fields of the slots dataclass at models.py:27-38.  `source` holds the file's
(relative) path string; `source.name` in the Python code corresponds to
`pathName source` here.  The `stage_key`/`sheet_range_raw` attributes the
validators write and read are not among the slots; see `parse_filename` and
`validate_discipline_codes`. -/
structure ParsedFilename where
  source : String
  des : Option String := none
  stage : Option String := none
  discipline : Option String := none
  sheet_type : Option String := none
  sheet_start : Option Int := none
  sheet_end : Option Int := none
  ext : Option String := none
deriving DecidableEq, Repr

/-- Derived sheet count (models.ParsedFilename.sheet_count). -/
def ParsedFilename.sheet_count (p : ParsedFilename) : Option Int :=
  match p.sheet_start with
  | none => none
  | some s =>
    match p.sheet_end with
    | none => some 1
    | some e => some (e - s + 1)

/-- Manifest row describing a single file (models.ManifestEntry), with
exactly the fields of the slots dataclass at models.py:49-63.  The
`checksum_algorithm`/`source_modified`/`package_path` keyword arguments
packager.py passes do not exist here; see `buildManifestStep`. -/
structure ManifestEntry where
  relative_path : String
  size_bytes : Int
  pages : Nat
  checksum : String
  des : Option String := none
  stage : Option String := none
  discipline : Option String := none
  sheet_type : Option String := none
  sheet_start : Option Int := none
  sheet_end : Option Int := none
  ext : Option String := none
deriving DecidableEq, Repr

/-- Outcome of a validation run (models.ValidationResult). -/
structure ValidationResult where
  manifest : List ManifestEntry := []
  errors : List ValidationMessage := []
  warnings : List ValidationMessage := []
deriving DecidableEq, Repr

/-- models.ValidationResult.extend: route each message to the errors or
warnings list by severity; info messages are dropped. -/
def ValidationResult.extend (r : ValidationResult) (messages : List ValidationMessage) :
    ValidationResult :=
  messages.foldl
    (fun acc msg =>
      match msg.level with
      | MessageLevel.error => { acc with errors := acc.errors ++ [msg] }
      | MessageLevel.warning => { acc with warnings := acc.warnings ++ [msg] }
      | MessageLevel.info => acc)
    r

/-- models.ValidationResult.has_errors. -/
def ValidationResult.has_errors (r : ValidationResult) : Bool :=
  !r.errors.isEmpty

/-- models.ValidationResult.has_warnings. -/
def ValidationResult.has_warnings (r : ValidationResult) : Bool :=
  !r.warnings.isEmpty

/-! ## Python string helpers

All helpers recurse structurally on the character list of the string, so that
concrete runs reduce inside the kernel. -/

/-- ASCII lower-casing, Python `str.lower` on the ASCII strings used here. -/
def strLower (s : String) : String :=
  String.mk (s.data.map Char.toLower)

/-- ASCII upper-casing, Python `str.upper` on the ASCII strings used here. -/
def strUpper (s : String) : String :=
  String.mk (s.data.map Char.toUpper)

/-- Python `c in s` for a single character. -/
def strContainsChar (s : String) (c : Char) : Bool :=
  s.data.contains c

/-- Split a character list on a separator character, keeping empty pieces
(Python `str.split(sep)` with a one-character separator). -/
def splitOnCharList (sep : Char) : List Char → List (List Char)
  | [] => [[]]
  | c :: rest =>
    match splitOnCharList sep rest with
    | [] => [[]]
    | r :: rs => if c == sep then [] :: r :: rs else (c :: r) :: rs

/-- Python `str.split(sep)` for a one-character separator. -/
def strSplitOnChar (sep : Char) (s : String) : List String :=
  (splitOnCharList sep s.data).map String.mk

/-- Python `str.strip()`: drop whitespace from both ends. -/
def strTrim (s : String) : String :=
  String.mk (((s.data.dropWhile Char.isWhitespace).reverse.dropWhile
    Char.isWhitespace).reverse)

/-- Truthiness of an optional Python string: non-null and non-empty. -/
def optTruthy (o : Option String) : Bool :=
  match o with
  | some s => !s.data.isEmpty
  | none => false

/-- Unwrap an optional string (used only where the code has established
truthiness). -/
def optStr (o : Option String) : String :=
  o.getD ""

/-- Python `a or b` for an optional string `a` and default `b`. -/
def pyOrStr (o : Option String) (d : String) : String :=
  match o with
  | some s => if s.data.isEmpty then d else s
  | none => d

/-- Python `str.isdigit` restricted to ASCII: non-empty and all digits. -/
def pyIsDigit (s : String) : Bool :=
  !s.data.isEmpty && s.data.all Char.isDigit

/-- Value of a non-empty all-digit character list. -/
def digitsToNat (cs : List Char) : Nat :=
  cs.foldl (fun n c => n * 10 + (c.toNat - '0'.toNat)) 0

/-- Python `int(s)` for the string shapes reachable here (optional
whitespace, optional sign, digits); `none` models a `ValueError`. -/
def pyInt (s : String) : Option Int :=
  match (strTrim s).data with
  | '-' :: rest =>
    if !rest.isEmpty && rest.all Char.isDigit then some (-(digitsToNat rest : Int)) else none
  | '+' :: rest =>
    if !rest.isEmpty && rest.all Char.isDigit then some (digitsToNat rest : Int) else none
  | cs =>
    if !cs.isEmpty && cs.all Char.isDigit then some (digitsToNat cs : Int) else none

/-- Base name of a (POSIX, relative) path string, Python `Path(p).name`. -/
def pathName (p : String) : String :=
  (strSplitOnChar '/' p).getLastD p

/-- Whether `token` occurs as a contiguous substring of `hay` (Python
`token in hay`), on character lists. -/
def charListHasSub : List Char → List Char → Bool
  | _, [] => true
  | [], _ :: _ => false
  | c :: rest, pat => pat.isPrefixOf (c :: rest) || charListHasSub rest pat

/-- Whether `token` occurs as a contiguous substring of `hay`. -/
def strContainsSub (hay token : String) : Bool :=
  charListHasSub hay.data token.data

/-- Lexicographic (code-point) comparison of strings, Python `a <= b`. -/
def charListLe : List Char → List Char → Bool
  | [], _ => true
  | _ :: _, [] => false
  | a :: as, b :: bs => a.toNat < b.toNat || (a == b && charListLe as bs)

/-- String order used by Python `sorted` on strings. -/
def strLe (a b : String) : Bool :=
  charListLe a.data b.data

/-- Insert `a` after the existing elements that compare `le` to it (stable
insertion step). -/
def insertLe (le : α → α → Bool) (a : α) : List α → List α
  | [] => [a]
  | b :: bs => if le b a then b :: insertLe le a bs else a :: b :: bs

/-- Stable insertion sort, modelling Python's stable `sorted`/`list.sort`. -/
def sortLe (le : α → α → Bool) (l : List α) : List α :=
  l.foldl (fun acc a => insertLe le a acc) []

/-- First occurrence of each element, in order (models Python dict insertion
order for keys). -/
def firstSeen [BEq α] : List α → List α
  | [] => []
  | a :: rest =>
    let tail := firstSeen rest
    a :: tail.filter (fun b => !(b == a))

/-- Remove duplicates keeping first occurrences (Python set built from a
list, observed only through membership and sorted iteration). -/
def dedup [BEq α] (l : List α) : List α :=
  firstSeen l

/-- Zero-padded decimal rendering, Python format spec `0{w}d`. -/
def pyFormatZero (n : Int) (w : Int) : String :=
  let digits := toString n.natAbs
  let width := w.toNat
  if n < 0 then
    "-" ++ String.mk (List.replicate (width - (digits.length + 1)) '0') ++ digits
  else
    String.mk (List.replicate (width - digits.length) '0') ++ digits

/-- Python tuple rendering of an integer pair, as interpolated by the
overlap warning. -/
def pairStr (p : Int × Int) : String :=
  "(" ++ toString p.1 ++ ", " ++ toString p.2 ++ ")"

/-! ## Configuration (config.py), consumed read-only by the engine -/

/-- Named capture groups a configured filename pattern may bind
(`des, stage, discipline, sheet_type, sheet_range, ext`); a field is `none`
when the group is absent from the pattern or did not participate in the
match. -/
structure RegexGroups where
  des : Option String := none
  stage : Option String := none
  discipline : Option String := none
  sheet_type : Option String := none
  sheet_range : Option String := none
  ext : Option String := none
deriving Repr

/-- config.ExceptionPattern: a secondary pattern, embedded as its matching
function (the regex engine is an external collaborator). -/
structure ExceptionPattern where
  name : String
  regex : String → Option RegexGroups

/-- config.ConventionsConfig.  `regex` is the compiled primary filename
pattern, embedded as its matching function; `allowed_extensions` entries
are lower-case (the pydantic loader normalizes them). -/
structure ConventionsConfig where
  regex : String → Option RegexGroups
  stage_case_insensitive : Bool := true
  allow_spaces : Bool := false
  allowed_extensions : List String := ["pdf", "docx"]
  exceptions : List ExceptionPattern := []

/-- config.RequirementConfig: a required or optional artifact. -/
structure RequirementConfig where
  key : String
  pattern : String
deriving DecidableEq, Repr

/-- config.StageArtifacts (the fields the validation engine reads). -/
structure StageArtifacts where
  required : List RequirementConfig := []
  optional : List RequirementConfig := []
  discipline_codes : List String := []
  forms : List String := []
  keywords_required : List String := []
  keywords_forbidden : List String := []
deriving DecidableEq, Repr

/-- config.PdfTextScanConfig. -/
structure PdfTextScanConfig where
  enabled : Bool := false
  keywords_required : List String := []
  keywords_forbidden : List String := []
  pages : Int := 3
  require_all_keywords : Bool := true
deriving Repr

/-- config.DisciplineValidationConfig. -/
structure DisciplineValidationConfig where
  enabled : Bool := true
deriving Repr

/-- config.FormsValidationConfig. -/
structure FormsValidationConfig where
  enabled : Bool := true
deriving Repr

/-- config.SheetNumberingValidationConfig. -/
structure SheetNumberingValidationConfig where
  enabled : Bool := true
  width : Int := 4
  require_contiguous : Bool := false
  starting_number : Option Int := none
deriving Repr

/-- config.SheetLimitConfig. -/
structure SheetLimitConfig where
  min_total_sheets : Option Int := none
  max_total_sheets : Option Int := none
deriving Repr

/-- config.ChecksConfig (the check families the engine consumes; the date
check is read by no validator). -/
structure ChecksConfig where
  pdf_text_scan : PdfTextScanConfig := {}
  sheet_limits : SheetLimitConfig := {}
  discipline_codes : DisciplineValidationConfig := {}
  forms : FormsValidationConfig := {}
  sheet_numbering : SheetNumberingValidationConfig := {}
deriving Repr

/-- config.Config restricted to what validation reads: conventions, the
ordered stage dictionary, the check toggles, and the checksum algorithm
from the packaging options. -/
structure Config where
  conventions : ConventionsConfig
  stages : List (String × StageArtifacts)
  checks : ChecksConfig := {}
  checksum_algo : String := "sha256"

/-! ## validators.py -/

/-- validators.normalize_stage. -/
def normalize_stage (stage : String) (case_insensitive : Bool) : String :=
  if case_insensitive then strLower stage else stage

/-- Iteration of validators.resolve_stage_config over the stage dictionary
entries. -/
def resolveStageLoop (stage_name : String) (ci : Bool) :
    List (String × StageArtifacts) → Option String × Option StageArtifacts
  | [] => (none, none)
  | (key, stage_config) :: rest =>
    if key == stage_name then (some key, some stage_config)
    else if ci && strLower key == strLower stage_name then (some key, some stage_config)
    else resolveStageLoop stage_name ci rest

/-- validators.resolve_stage_config: return the configured stage entry for a
parsed stage name, or an absence. -/
def resolve_stage_config (stage_name : Option String) (config : Config) :
    Option String × Option StageArtifacts :=
  if !optTruthy stage_name then (none, none)
  else resolveStageLoop (optStr stage_name) config.conventions.stage_case_insensitive config.stages

/-- validators.normalize_sheet_range: convert a sheet range string to
integers; `none` models the `ValueError` that `int` raises on a non-numeric
component (the code splits only on the first hyphen here). -/
def normalize_sheet_range (raw : String) : Option (Int × Option Int) :=
  if strContainsChar raw '-' then
    let parts := strSplitOnChar '-' raw
    let start_str := parts.headD ""
    let end_str := String.intercalate "-" (parts.drop 1)
    match pyInt start_str, pyInt end_str with
    | some a, some b => some (a, some b)
    | _, _ => none
  else
    match pyInt raw with
    | some a => some (a, none)
    | none => none

/-- validators._normalize_token: lower-case and strip every character
outside `[a-z0-9]`. -/
def normalize_token (value : String) : String :=
  String.mk ((strLower value).data.filter
    (fun c => (Nat.ble 'a'.toNat c.toNat && Nat.ble c.toNat 'z'.toNat) || c.isDigit))

/-- First exception pattern that matches the name (the loop at the end of
the pattern-selection block of validators.parse_filename). -/
def tryExceptions (exceptions : List ExceptionPattern) (name : String) :
    Option RegexGroups :=
  match exceptions with
  | [] => none
  | e :: rest =>
    match e.regex name with
    | some g => some g
    | none => tryExceptions rest name

/-- Message for a space in a filename when the convention forbids spaces. -/
def spaceMsg (name : String) : ValidationMessage :=
  ⟨MessageLevel.error, "Spaces are not allowed in filename '" ++ name ++ "'"⟩

/-- Message for a filename matching no configured pattern. -/
def patternMismatchMsg (name : String) : ValidationMessage :=
  ⟨MessageLevel.error, "Filename '" ++ name ++ "' does not match convention regex"⟩

/-- The exception text of the out-of-slots attribute write/read
`parsed.stage_key` (validators.py:110 and 241): neither name is a field of
the slots dataclass ParsedFilename (models.py:27-38). -/
def attributeErrorStageKey : String :=
  "AttributeError: 'ParsedFilename' object has no attribute 'stage_key'"

/-- The exception text of the ManifestEntry construction at
packager.py:110-124, whose `checksum_algorithm` keyword argument is not a
field of the slots dataclass (models.py:49-63). -/
def typeErrorManifestEntry : String :=
  "TypeError: ManifestEntry.__init__() got an unexpected keyword argument 'checksum_algorithm'"

/-- Accumulation step of the per-component sheet-number loop of
validators.parse_filename (the loop body at validators.py:142-159, embedded
in isolation: in the shipped code the loop sits below the raising
`stage_key` write and is never executed): a non-digit component gets the
non-numeric error and skips the width check via `continue`; an all-digit
component of the wrong width gets the width error; either error sets the
`has_error` flag. -/
def sheetComponentStep (number_config : SheetNumberingValidationConfig)
    (name : String) (acc : List ValidationMessage × Bool) (component : String) :
    List ValidationMessage × Bool :=
  if !pyIsDigit component then
    (acc.1 ++ [⟨MessageLevel.error,
      "Sheet number '" ++ component ++ "' in " ++ name ++ " is not numeric"⟩], true)
  else if number_config.enabled && number_config.width != 0
      && (component.length : Int) != number_config.width then
    (acc.1 ++ [⟨MessageLevel.error,
      "Sheet number '" ++ component ++ "' in " ++ name ++ " must be "
        ++ toString number_config.width ++ " digits"⟩], true)
  else acc

/-- validators.parse_filename: parse a filename according to the configured
conventions.  Mirrors the source statement for statement.  The space and
no-match paths return before any out-of-slots write and yield `(none,
messages)`.  On a match the code populates the declared fields, runs the
extension check and the stage normalization/resolution (whose message list
is still local), and then executes `parsed.stage_key = stage_key`
(validators.py:110) — an AttributeError, because `stage_key` is not among
the slots.  The messages collected so far are lost with the exception, and
every later statement of the source (the unconfigured-stage error, the
discipline check at 120-134, the sheet-range loop at 136-170 and its
`normalize_sheet_range` call, the extension lowering) is unreachable. -/
def parse_filename (path : String) (config : Config) :
    Except String (Option ParsedFilename × List ValidationMessage) :=
  let name := pathName path
  if !config.conventions.allow_spaces && strContainsChar name ' ' then
    Except.ok (none, [spaceMsg name])
  else
    let m :=
      match config.conventions.regex name with
      | some g => some g
      | none => tryExceptions config.conventions.exceptions name
    match m with
    | none => Except.ok (none, [patternMismatchMsg name])
    | some data =>
      let parsed0 : ParsedFilename :=
        { source := path
          des := data.des
          stage := data.stage
          discipline := data.discipline
          sheet_type := data.sheet_type
          ext := data.ext }
      let extMsgs : List ValidationMessage :=
        if optTruthy parsed0.ext
            && !config.conventions.allowed_extensions.contains (strLower (optStr parsed0.ext)) then
          [⟨MessageLevel.error,
            "Extension '" ++ optStr parsed0.ext ++ "' is not allowed"⟩]
        else []
      let raw_stage := data.stage
      let stageNorm := normalize_stage (optStr raw_stage) config.conventions.stage_case_insensitive
      let parsed1 :=
        if optTruthy raw_stage then { parsed0 with stage := some stageNorm }
        else parsed0
      let skSc := resolve_stage_config raw_stage config
      Except.error attributeErrorStageKey

/-! ## Glob matching (the fnmatch collaborator used by the requirement
matcher) -/

/-- Scan a character-class body for its closing `]`; returns the class
content and the remainder after the bracket. -/
def classScan : List Char → Option (List Char × List Char)
  | [] => none
  | c :: rest =>
    if c == ']' then some ([], rest)
    else
      match classScan rest with
      | some pr => some (c :: pr.1, pr.2)
      | none => none

/-- Drop a leading `flag` character, reporting whether it was present. -/
def stripFlag (flag : Char) (cs : List Char) : Bool × List Char :=
  match cs with
  | c :: rest => if c == flag then (true, rest) else (false, cs)
  | [] => (false, cs)

/-- Split the text following `[` into the class content and the remainder,
treating a `]` right after `[` (or after a leading `!`) as a literal member,
as fnmatch does. -/
def classSplit (cs : List Char) : Option (List Char × List Char) :=
  let s1 := stripFlag '!' cs
  let s2 := stripFlag ']' s1.2
  match classScan s2.2 with
  | some pr =>
    some ((if s1.1 then ['!'] else []) ++ (if s2.1 then [']'] else []) ++ pr.1, pr.2)
  | none => none

/-- Membership of a character in a character-class body, with `a-z` ranges
and literal hyphens at the edges. -/
def charInClass (c : Char) : List Char → Bool
  | [] => false
  | x :: '-' :: y :: rest =>
    (Nat.ble x.toNat c.toNat && Nat.ble c.toNat y.toNat) || charInClass c rest
  | x :: rest => c == x || charInClass c rest

/-- Fuel-indexed glob matching step.  Every recursive call strictly
decreases `p.length + s.length` — `classSplit_length` above bounds the
class case — so the fuel chosen in `globMatch` is never exhausted; the
structural recursion on fuel keeps concrete matches kernel-reducible. -/
def globMatchFuel : Nat → List Char → List Char → Bool
  | 0, _, _ => false
  | Nat.succ fuel, p, s =>
    match p, s with
    | [], s => s.isEmpty
    | '*' :: ps, s =>
      globMatchFuel fuel ps s ||
        (match s with
         | [] => false
         | _ :: cs => globMatchFuel fuel ('*' :: ps) cs)
    | '?' :: ps, _ :: cs => globMatchFuel fuel ps cs
    | '?' :: _, [] => false
    | '[' :: ps, s =>
      (match classSplit ps with
       | some pr =>
         match s with
         | [] => false
         | c :: cs =>
           (match pr.1 with
            | '!' :: items => !charInClass c items
            | items => charInClass c items) && globMatchFuel fuel pr.2 cs
       | none =>
         match s with
         | '[' :: cs => globMatchFuel fuel ps cs
         | _ => false)
    | c :: ps, d :: cs => c == d && globMatchFuel fuel ps cs
    | _ :: _, [] => false

/-- Glob matching of a whole string against a pattern with `*`, `?` and
character classes, following fnmatch's translation to a fully anchored
regular expression. -/
def globMatch (p s : List Char) : Bool :=
  globMatchFuel (p.length + s.length + 1) p s

/-- fnmatch.fnmatch as called by the requirement matcher (the case folding
is done by the caller through `.upper()`). -/
def fnmatchName (name pattern : String) : Bool :=
  globMatch pattern.data name.data

/-! ## Requirement matching -/

/-- Sub-pattern list of a requirement: the `|`-separated, stripped pieces of
its pattern. -/
def reqPatterns (req : RequirementConfig) : List String :=
  (strSplitOnChar '|' req.pattern).map strTrim

/-- Whether a file matches a requirement: some sub-pattern matches the
file's base name, compared upper-cased. -/
def reqMatches (file : String) (req : RequirementConfig) : Bool :=
  (reqPatterns req).any
    (fun pattern => fnmatchName (strUpper (pathName file)) (strUpper pattern))

/-- Append a file to the entry of `key` in the insertion-ordered result
dictionary. -/
def dictAppend (d : List (String × List String)) (key file : String) :
    List (String × List String) :=
  d.map (fun kv => if kv.1 == key then (kv.1, kv.2 ++ [file]) else kv)

/-- validators.find_required_artifacts: files matching each requirement
pattern, as an insertion-ordered dictionary keyed by requirement key. -/
def find_required_artifacts (files : List String)
    (requirements : List RequirementConfig) : List (String × List String) :=
  files.foldl
    (fun d file =>
      requirements.foldl
        (fun d req => if reqMatches file req then dictAppend d req.key file else d)
        d)
    ((firstSeen (requirements.map (fun req => req.key))).map (fun k => (k, [])))

/-- validators.validate_required: one missing-artifact error per requirement
key with no matching file. -/
def validate_required (files : List String)
    (requirements : List RequirementConfig) : List ValidationMessage :=
  (find_required_artifacts files requirements).foldl
    (fun messages kv =>
      if kv.2.isEmpty then
        messages ++ [⟨MessageLevel.error, "Missing required artifact: " ++ kv.1⟩]
      else messages)
    []

/-! ## Cross-field validators -/

/-- Range of a parsed file as used by overlap detection: the start, and the
end defaulted to the start through Python truthiness (`sheet_end or start`). -/
def rangeOf (p : ParsedFilename) : Int × Int :=
  let start := p.sheet_start.getD 0
  (start,
   match p.sheet_end with
   | some e => if e == 0 then start else e
   | none => start)

/-- Lexicographic order on integer pairs, Python tuple comparison. -/
def pairLe (a b : Int × Int) : Bool :=
  a.1 < b.1 || (a.1 == b.1 && a.2 ≤ b.2)

/-- Warnings for each adjacent sorted pair whose second range starts no
later than the first range's end. -/
def adjacentOverlapMsgs (discipline : String) : List (Int × Int) → List ValidationMessage
  | a :: b :: rest =>
    (if b.1 ≤ a.2 then
      [⟨MessageLevel.warning,
        "Discipline " ++ discipline ++ " has overlapping sheets "
          ++ pairStr a ++ " and " ++ pairStr b⟩]
     else []) ++ adjacentOverlapMsgs discipline (b :: rest)
  | _ => []

/-- validators.detect_duplicate_ranges: group files having a discipline and
a sheet start by discipline (dict insertion order), sort each group's
ranges, and warn on overlapping adjacent pairs. -/
def detect_duplicate_ranges (parsed_files : List ParsedFilename) :
    List ValidationMessage :=
  let eligible := parsed_files.filter
    (fun p => optTruthy p.discipline && p.sheet_start.isSome)
  let keys := firstSeen (eligible.map (fun p => optStr p.discipline))
  keys.flatMap
    (fun discipline =>
      let ranges := (eligible.filter (fun p => optStr p.discipline == discipline)).map rangeOf
      adjacentOverlapMsgs discipline (sortLe pairLe ranges))

/-- validators.validate_discipline_codes: ensure parsed files use the
expected stage and discipline codes.  The guards and the `allowed` set
(validators.py:236-239) are computed first; the per-file loop then reads
`parsed.stage_key` (line 241), an attribute no ParsedFilename instance can
have under the slots dataclass, so the first record raises AttributeError;
only an empty record list returns normally. -/
def validate_discipline_codes (parsed_files : List ParsedFilename)
    (stage_key : String) (stage_config : Option StageArtifacts) (config : Config) :
    Except String (List ValidationMessage) :=
  match stage_config with
  | none => Except.ok []
  | some sc =>
    if !config.checks.discipline_codes.enabled then Except.ok []
    else
      let allowed := sc.discipline_codes.map strUpper
      match parsed_files with
      | [] => Except.ok []
      | _ :: _ => Except.error attributeErrorStageKey

/-- validators.validate_indot_forms: fuzzy presence check of each configured
form token among the normalized file names. -/
def validate_indot_forms (files : List String)
    (stage_config : Option StageArtifacts) (config : Config) :
    List ValidationMessage :=
  match stage_config with
  | none => []
  | some sc =>
    if !config.checks.forms.enabled || sc.forms.isEmpty then []
    else
      let normalized_files := files.map (fun p => normalize_token (pathName p))
      sc.forms.flatMap
        (fun form =>
          let token := normalize_token form
          if token.data.isEmpty then []
          else if normalized_files.any (fun n => strContainsSub n token) then []
          else
            [⟨MessageLevel.error,
              "Expected form '" ++ form ++ "' was not found in submission"⟩])

/-- Python `a or b` for an optional integer `a` and default `b` (zero is
falsy). -/
def pyOrInt (o : Option Int) (d : Int) : Int :=
  match o with
  | some v => if v == 0 then d else v
  | none => d

/-- Continuity-cursor step of validators.validate_sheet_numbering: compare
the record's start to the expected cursor, emit a gap error and reset the
cursor on mismatch, then advance the cursor past the record (`or` chains
model Python truthiness). -/
def continuityStep (discipline : String) (width : Int)
    (acc : List ValidationMessage × Int) (record : ParsedFilename) :
    List ValidationMessage × Int :=
  let expected := acc.2
  let start := record.sheet_start.getD 0
  let mismatch := record.sheet_start != some expected
  let gap :=
    if mismatch then
      [⟨MessageLevel.error,
        "Discipline " ++ discipline ++ " numbering jumps to "
          ++ pyFormatZero start width ++ " in " ++ pathName record.source
          ++ "; expected " ++ pyFormatZero expected width⟩]
    else []
  let expected1 := if mismatch then pyOrInt record.sheet_start expected else expected
  let end_value := pyOrInt record.sheet_end (pyOrInt record.sheet_start expected1)
  (acc.1 ++ gap, end_value + 1)

/-- Per-discipline messages of the starting-number and continuity
sub-checks of validators.validate_sheet_numbering. -/
def disciplineNumberingMsgs (number_config : SheetNumberingValidationConfig)
    (discipline : String) (records0 : List ParsedFilename) : List ValidationMessage :=
  let records := sortLe (fun a b => (a.sheet_start.getD 0) ≤ (b.sheet_start.getD 0)) records0
  let startMsgs : List ValidationMessage :=
    match number_config.starting_number with
    | some sn =>
      match records with
      | [] => []
      | first :: _ =>
        match first.sheet_start with
        | some f =>
          if f != sn then
            [⟨MessageLevel.warning,
              "Discipline " ++ discipline ++ " begins at sheet "
                ++ pyFormatZero f number_config.width ++ " but expected "
                ++ pyFormatZero sn number_config.width⟩]
          else []
        | none => []
    | none => []
  if !number_config.require_contiguous then startMsgs
  else
    match records with
    | [] => startMsgs
    | first :: _ =>
      let expected0 := pyOrInt first.sheet_start 0
      startMsgs ++ (records.foldl (continuityStep discipline number_config.width) ([], expected0)).1

/-- validators.validate_sheet_numbering: overlap detection always (when the
check family is enabled), then the starting-number and continuity
sub-checks per discipline group. -/
def validate_sheet_numbering (parsed_files : List ParsedFilename)
    (config : Config) : List ValidationMessage :=
  let number_config := config.checks.sheet_numbering
  if !number_config.enabled then []
  else
    let overlap := detect_duplicate_ranges parsed_files
    if !number_config.require_contiguous && number_config.starting_number.isNone then
      overlap
    else
      let eligible := parsed_files.filter (fun p => p.sheet_start.isSome)
      let keys := firstSeen (eligible.map (fun p => pyOrStr p.discipline "UNKNOWN"))
      overlap ++ keys.flatMap
        (fun discipline =>
          disciplineNumberingMsgs number_config discipline
            (eligible.filter (fun p => pyOrStr p.discipline "UNKNOWN" == discipline)))

/-! ## packager.py: manifest building and the validation entry point -/

/-- File-system and PDF collaborators consumed by manifest building: file
size, checksum, modification stamp, PDF page count (`.error` models a
reader exception, caught into a warning), and the bounded text excerpt. -/
structure FileOracle where
  pages : String → Except String Nat
  size : String → Int
  checksum : String → String
  modified : String → String
  extract : String → Int → String

/-- State threaded through the file loop of packager._build_manifest:
manifest entries, messages, parsed records, and the still-missing required
keywords. -/
structure BuildState where
  entries : List ManifestEntry := []
  messages : List ValidationMessage := []
  parsed_records : List ParsedFilename := []
  missing_keywords : List String := []
deriving Repr

/-- One iteration of the file loop of packager._build_manifest.  A file the
parser rejects (space or pattern mismatch) keeps its messages and is
skipped; a parsed file would have its PDF page count read (packager.py:
98-103, a reader failure appending a warning) and then reach the
ManifestEntry construction at 110-124, whose out-of-slots keyword arguments
raise TypeError — in the shipped code this branch is itself unreachable,
because `parse_filename` raises first on every pattern-matched filename.
The per-file keyword scan (127-142) sits below the constructor and is
likewise unreachable. -/
def buildManifestStep (config : Config) (oracle : FileOracle)
    (forbidden_global : List String) (st : BuildState) (file : String) :
    Except String BuildState :=
  match parse_filename file config with
  | Except.error e => Except.error e
  | Except.ok (parsed?, parse_messages) =>
    let st := { st with messages := st.messages ++ parse_messages }
    match parsed? with
    | none => Except.ok st
    | some parsed =>
      let st := { st with parsed_records := st.parsed_records ++ [parsed] }
      let name := pathName file
      let pagesMsgs :=
        if parsed.ext == some "pdf" then
          match oracle.pages file with
          | Except.ok n => (n, ([] : List ValidationMessage))
          | Except.error exc =>
            (0, [⟨MessageLevel.warning,
              "Failed to read pages for " ++ name ++ ": " ++ exc⟩])
        else (0, [])
      let st := { st with messages := st.messages ++ pagesMsgs.2 }
      Except.error typeErrorManifestEntry

/-- packager._build_manifest: parse every candidate file, build the
manifest rows, and run the keyword scan; returns entries, messages and
parsed records. -/
def build_manifest (files : List String) (config : Config)
    (stage_config : Option StageArtifacts) (oracle : FileOracle) :
    Except String (List ManifestEntry × List ValidationMessage × List ParsedFilename) :=
  let scan_config := config.checks.pdf_text_scan
  let required_global :=
    if scan_config.enabled then
      dedup (scan_config.keywords_required
        ++ (match stage_config with
            | some sc => sc.keywords_required
            | none => []))
    else []
  let forbidden_global :=
    if scan_config.enabled then
      dedup (scan_config.keywords_forbidden
        ++ (match stage_config with
            | some sc => sc.keywords_forbidden
            | none => []))
    else []
  let loop := files.foldlM (buildManifestStep config oracle forbidden_global)
    { missing_keywords := required_global : BuildState }
  match loop with
  | Except.error e => Except.error e
  | Except.ok st =>
    let tailMsgs :=
      if scan_config.enabled && !st.missing_keywords.isEmpty then
        [⟨if scan_config.require_all_keywords then MessageLevel.error
          else MessageLevel.warning,
          "Missing required keywords across submission: "
            ++ String.intercalate ", " (sortLe strLe st.missing_keywords)⟩]
      else []
    Except.ok (st.entries, st.messages ++ tailMsgs, st.parsed_records)

/-- packager._summarize: file count and total pages of the manifest. -/
def summarize (entries : List ManifestEntry) : Nat × Nat :=
  (entries.length, entries.foldl (fun acc e => acc + e.pages) 0)

/-- Strict escalation at the end of packager.validate_directory: copy every
warning into the errors list as an error and clear the warnings. -/
def escalateStrict (r : ValidationResult) : ValidationResult :=
  { r with
    errors := r.errors ++ r.warnings.map (fun warn => ⟨MessageLevel.error, warn.text⟩)
    warnings := [] }

/-- Message appended when the validated stage is not configured. -/
def stageNotDefinedMsg (stage : String) : ValidationMessage :=
  ⟨MessageLevel.error, "Stage '" ++ stage ++ "' not defined in config"⟩

/-- packager.validate_directory: the validation entry point.  `files` is the
ordered candidate list supplied by the file walker (gathering and ignore
filtering are external); the sheet-map side write has no effect on the
returned result and is omitted. -/
def validate_directory (files : List String) (config : Config) (stage : String)
    (strict : Bool) (oracle : FileOracle) : Except String ValidationResult :=
  let skSc := resolve_stage_config (some stage) config
  match build_manifest files config skSc.2 oracle with
  | Except.error e => Except.error e
  | Except.ok (manifest_entries, messages, parsed_records) =>
    let result0 : ValidationResult := { manifest := manifest_entries }
    let result1 := result0.extend messages
    match skSc with
    | (some stage_key, some stage_config) =>
      let r2 := result1.extend (validate_required files stage_config.required)
      match validate_discipline_codes parsed_records stage_key (some stage_config) config with
      | Except.error e => Except.error e
      | Except.ok discipline_messages =>
      let r3 := r2.extend discipline_messages
      let r4 := r3.extend (validate_indot_forms files (some stage_config) config)
      let r5 := r4.extend (validate_sheet_numbering parsed_records config)
      let total_pages := (summarize manifest_entries).2
      let limits := config.checks.sheet_limits
      let r6 :=
        match limits.min_total_sheets with
        | some n =>
          if n != 0 && (total_pages : Int) < n then
            { r5 with warnings := r5.warnings ++
                [⟨MessageLevel.warning,
                  "Total sheets " ++ toString total_pages ++ " below minimum "
                    ++ toString n⟩] }
          else r5
        | none => r5
      let r7 :=
        match limits.max_total_sheets with
        | some n =>
          if n != 0 && (total_pages : Int) > n then
            { r6 with errors := r6.errors ++
                [⟨MessageLevel.error,
                  "Total sheets " ++ toString total_pages ++ " exceeds maximum "
                    ++ toString n⟩] }
          else r6
        | none => r6
      Except.ok (if strict && r7.has_warnings then escalateStrict r7 else r7)
    | _ =>
      Except.ok { result1 with errors := result1.errors ++ [stageNotDefinedMsg stage] }

/-! ## Shared helpers for the theorems -/

/-- Whether a message has error severity. -/
def isErrorMsg (m : ValidationMessage) : Bool :=
  m.level == MessageLevel.error

/-- Whether a message has warning severity. -/
def isWarningMsg (m : ValidationMessage) : Bool :=
  m.level == MessageLevel.warning

/-- Errors of a validation run that did not raise. -/
def runErrors (e : Except String ValidationResult) : List ValidationMessage :=
  match e with
  | Except.ok r => r.errors
  | Except.error _ => []

/-- Warnings of a validation run that did not raise. -/
def runWarnings (e : Except String ValidationResult) : List ValidationMessage :=
  match e with
  | Except.ok r => r.warnings
  | Except.error _ => []

/-- Manifest of a validation run that did not raise. -/
def runManifest (e : Except String ValidationResult) : List ManifestEntry :=
  match e with
  | Except.ok r => r.manifest
  | Except.error _ => []

instance {ε α : Type _} [DecidableEq ε] [DecidableEq α] : DecidableEq (Except ε α) :=
  fun a b =>
    match a, b with
    | Except.error e, Except.error f =>
      if h : e = f then isTrue (h ▸ rfl) else isFalse (fun hh => h (Except.error.inj hh))
    | Except.error _, Except.ok _ => isFalse (fun hh => Except.noConfusion hh)
    | Except.ok _, Except.error _ => isFalse (fun hh => Except.noConfusion hh)
    | Except.ok x, Except.ok y =>
      if h : x = y then isTrue (h ▸ rfl) else isFalse (fun hh => h (Except.ok.inj hh))

/-- Configuration for the C9 witness: one configured stage `Stage2`. -/
def w9cfg : Config :=
  { conventions := { regex := fun _ => none }
    stages := [("Stage2", {})] }

/-- Inert file-system oracle used by concrete runs. -/
def inertOracle : FileOracle :=
  { pages := fun _ => Except.ok 0
    size := fun _ => 0
    checksum := fun _ => ""
    modified := fun _ => ""
    extract := fun _ _ => "" }

/-- The single file of the C1 scenario. -/
def c1file : String := "2401490_Stage2_BAD_PLANS_0001.pdf"

/-- Convention for the C1 scenario: the configured pattern captures the C1
file's fields (stage token `Stage2`, discipline `BAD`). -/
def c1cfg : Config :=
  { conventions :=
      { regex := fun name =>
          if name == c1file then
            some { des := some "2401490", stage := some "Stage2",
                   discipline := some "BAD", sheet_type := some "PLANS",
                   sheet_range := some "0001", ext := some "pdf" }
          else none }
    stages := [("Stage2", { discipline_codes := ["ROAD", "TITLE"] })] }

/-- The C1 validation run: discipline check enabled (default), stage
whitelist `{ROAD, TITLE}`, one file with discipline `BAD` whose stage token
resolves to the validated stage. -/
def c1run : Except String ValidationResult :=
  validate_directory [c1file] c1cfg "Stage2" false inertOracle

/-- The C2 crash file: its configured pattern binds the sheet_range group
to a token with two hyphen separators whose components are all digits of
the configured width. -/
def c2file : String := "2401490_Stage2_ROAD_PLANS_0001-0002-0003.pdf"

/-- Convention for the C2 run. -/
def c2cfg : Config :=
  { conventions :=
      { regex := fun name =>
          if name == c2file then
            some { des := some "2401490", stage := some "Stage2",
                   discipline := some "ROAD", sheet_type := some "PLANS",
                   sheet_range := some "0001-0002-0003", ext := some "pdf" }
          else none }
    stages := [("Stage2", {})] }

/-- Stage dictionary for the C4 counterexample: two distinct keys that
differ only by case, in the order `stage2`, `Stage2`, with distinguishable
payloads. -/
def c4cfg : Config :=
  { conventions := { regex := fun _ => none, stage_case_insensitive := true }
    stages :=
      [("stage2", { discipline_codes := ["A"] }),
       ("Stage2", { discipline_codes := ["B"] })] }

/-- Parsed-file shape used by the C5 scenarios: discipline `ROAD` with the
given sheet range. -/
def c5mk (r : Int × Option Int) : ParsedFilename :=
  { source := "f", discipline := some "ROAD", sheet_start := some r.1, sheet_end := r.2 }

/-- The C6 counterexample file; its pattern binds sheet_range to `ABC`. -/
def c6file : String := "PLANS_ABC.pdf"

/-- Convention for the C6 counterexample; the width check is enabled with
the default width 4. -/
def c6cfg : Config :=
  { conventions :=
      { regex := fun name =>
          if name == c6file then some { sheet_range := some "ABC" } else none }
    stages := [("Stage2", {})] }

/-- Per-component message characterization of the sheet-number loop: a
non-digit component gets exactly the NonNumericSheet error (the width check
is skipped), an all-digit component of the wrong width (with the check
enabled and a non-zero width) gets exactly the SheetWidthMismatch error,
any other component gets none. -/
def c6stepMsgs (nc : SheetNumberingValidationConfig) (name component : String) :
    List ValidationMessage :=
  if !pyIsDigit component then
    [⟨MessageLevel.error,
      "Sheet number '" ++ component ++ "' in " ++ name ++ " is not numeric"⟩]
  else if nc.enabled && nc.width != 0 && (component.length : Int) != nc.width then
    [⟨MessageLevel.error,
      "Sheet number '" ++ component ++ "' in " ++ name ++ " must be "
        ++ toString nc.width ++ " digits"⟩]
  else []

/-- The C6 width-instance file; its pattern binds sheet_range to `00001`. -/
def c6wfile : String := "PLANS_00001.pdf"

/-- Convention for the C6 width instance. -/
def c6wcfg : Config :=
  { conventions :=
      { regex := fun name =>
          if name == c6wfile then some { sheet_range := some "00001" } else none }
    stages := [("Stage2", {})] }

/-- Configuration for the C7 witness (spaces forbidden and the text scan
disabled by default). -/
def c7cfg : Config :=
  { conventions := { regex := fun _ => none }
    stages := [("Stage2", {})] }

/-- Configuration for the C3 counterexample: the keyword scan is enabled
with a required keyword and `require_all_keywords` off, so an empty
directory produces a warning during manifest building. -/
def c3cfg : Config :=
  { conventions := { regex := fun _ => none }
    stages := [("Stage2", {})]
    checks :=
      { pdf_text_scan :=
          { enabled := true
            keywords_required := ["REQUIRED"]
            require_all_keywords := false } } }

/-- Insertion-ordered dictionary with key list `keys` and values `v`. -/
def dictShape (keys : List String) (v : String → List String) :
    List (String × List String) :=
  keys.map (fun k => (k, v k))

/-- The copies of `file` that the requirement loop appends under key `k`:
one per requirement with that key that the file matches. -/
def appendsFor (file : String) (reqs : List RequirementConfig) (k : String) :
    List String :=
  (reqs.filter (fun r => r.key == k && reqMatches file r)).map (fun _ => file)

/-- The file of the C8 optional-invariance scenario: it matches no
configured pattern, so the run stays on the crash-free rejected-file path
of the source (the pattern-mismatch return precedes the out-of-slots
write). -/
def c8badfile : String := "nomatch.pdf"

/-- The single required artifact of the C8 scenario. -/
def c8req : RequirementConfig := ⟨"title_sheet", "*TITLE*.pdf"⟩

/-- C8 scenario configuration, parameterized by an arbitrary optional
requirement list; the configured pattern matches nothing. -/
def c8cfg (optional : List RequirementConfig) : Config :=
  { conventions := { regex := fun _ => none }
    stages := [("Stage2", { required := [c8req], optional := optional })] }

/-! ## Theorems: supporting lemmas, then the claims -/

theorem classScan_length {cs pre post : List Char}
    (h : classScan cs = some (pre, post)) : post.length < cs.length := by
  induction cs generalizing pre post with
  | nil => simp [classScan] at h
  | cons c rest ih =>
    rw [classScan] at h
    split at h
    · obtain ⟨h1, h2⟩ := Prod.mk.injEq .. ▸ Option.some.inj h
      subst h2
      simp
    · split at h
      · rename_i pr hpr
        obtain ⟨h1, h2⟩ := Prod.mk.injEq .. ▸ Option.some.inj h
        subst h2
        have := @ih pr.1 pr.2 (by rw [hpr])
        simp
        omega
      · exact absurd h (by simp)

theorem stripFlag_length (flag : Char) (cs : List Char) :
    (stripFlag flag cs).2.length ≤ cs.length := by
  unfold stripFlag
  cases cs with
  | nil => simp
  | cons c rest => dsimp only; split <;> simp

theorem classSplit_length {cs pre post : List Char}
    (h : classSplit cs = some (pre, post)) : post.length < cs.length + 1 := by
  simp only [classSplit] at h
  split at h
  · rename_i pr hpr
    obtain ⟨h1, h2⟩ := Prod.mk.injEq .. ▸ Option.some.inj h
    subst h2
    have hscan := @classScan_length _ pr.1 pr.2 (by rw [hpr])
    have h3 := stripFlag_length ']' (stripFlag '!' cs).2
    have h4 := stripFlag_length '!' cs
    omega
  · exact absurd h (by simp)

theorem extend_characterization (r : ValidationResult) (messages : List ValidationMessage) :
    r.extend messages =
      { manifest := r.manifest
        errors := r.errors ++ messages.filter isErrorMsg
        warnings := r.warnings ++ messages.filter isWarningMsg } := by
  induction messages generalizing r with
  | nil => simp [ValidationResult.extend]
  | cons m ms ih =>
    have hstep : r.extend (m :: ms) =
        (match m.level with
          | MessageLevel.error => { r with errors := r.errors ++ [m] }
          | MessageLevel.warning => { r with warnings := r.warnings ++ [m] }
          | MessageLevel.info => r).extend ms := rfl
    rw [hstep]
    cases hm : m.level <;>
      simp [ih, List.filter_cons, isErrorMsg, isWarningMsg, hm]

/-- C10: `ValidationResult.extend` appends error-severity messages to the
errors list and warning-severity messages to the warnings list, each in
input order, leaves the manifest untouched, and silently discards
info-severity messages (so they cannot affect the result or its derived
`has_errors`/`has_warnings` flags). -/
theorem c10_extend_routes_by_severity (r : ValidationResult)
    (messages : List ValidationMessage) :
    r.extend messages =
      { manifest := r.manifest
        errors := r.errors ++ messages.filter isErrorMsg
        warnings := r.warnings ++ messages.filter isWarningMsg } ∧
    (r.extend messages).has_errors
      = !(r.errors ++ messages.filter isErrorMsg).isEmpty ∧
    (r.extend messages).has_warnings
      = !(r.warnings ++ messages.filter isWarningMsg).isEmpty ∧
    r.extend (messages.filter (fun m => m.level == MessageLevel.info)) = r := by
  refine ⟨extend_characterization r messages, ?_, ?_, ?_⟩
  · rw [extend_characterization]; rfl
  · rw [extend_characterization]; rfl
  · rw [extend_characterization]
    have he : (messages.filter (fun m => m.level == MessageLevel.info)).filter isErrorMsg = [] := by
      refine List.filter_eq_nil_iff.mpr ?_
      intro m hm
      have := List.of_mem_filter hm
      cases hlvl : m.level <;> simp_all [isErrorMsg]
    have hw : (messages.filter (fun m => m.level == MessageLevel.info)).filter isWarningMsg = [] := by
      refine List.filter_eq_nil_iff.mpr ?_
      intro m hm
      have := List.of_mem_filter hm
      cases hlvl : m.level <;> simp_all [isWarningMsg]
    simp [he, hw]

/-- C9: when the validated stage resolves to no configured stage, the run
returns right after manifest building with the parse-phase messages split by
severity and one single stage-not-defined error appended; the
required-artifact, discipline, forms, sheet-numbering and sheet-limit checks
are all skipped and strict escalation is not applied (the right-hand side
does not depend on `strict`, so parse-phase warnings stay warnings). -/
theorem c9_unconfigured_stage_early_return (files : List String) (config : Config)
    (stage : String) (strict : Bool) (oracle : FileOracle)
    (h : resolve_stage_config (some stage) config = (none, none)) :
    validate_directory files config stage strict oracle =
      (build_manifest files config none oracle).map
        (fun t =>
          { manifest := t.1
            errors := t.2.1.filter isErrorMsg ++ [stageNotDefinedMsg stage]
            warnings := t.2.1.filter isWarningMsg }) := by
  simp only [validate_directory, h]
  cases hbm : build_manifest files config none oracle with
  | error e => simp [Except.map]
  | ok t =>
    obtain ⟨entries, msgs, recs⟩ := t
    simp [Except.map, extend_characterization]

theorem c9_witness :
    resolve_stage_config (some "Nope") w9cfg = (none, none) ∧
    validate_directory [] w9cfg "Nope" true inertOracle =
      (build_manifest [] w9cfg none inertOracle).map
        (fun t =>
          { manifest := t.1
            errors := t.2.1.filter isErrorMsg ++ [stageNotDefinedMsg "Nope"]
            warnings := t.2.1.filter isWarningMsg }) :=
  ⟨by decide, c9_unconfigured_stage_early_return [] w9cfg "Nope" true inertOracle (by decide)⟩

/-- C1: at the scenario input — discipline check enabled, whitelist
`{ROAD, TITLE}`, one file with discipline `BAD` whose stage token resolves
to the validated stage — `parse_filename` executes the out-of-slots write
`parsed.stage_key = stage_key` (validators.py:110) and raises
AttributeError, so the whole validation run aborts: no ValidationResult, no
DisciplineNotPermitted message and no manifest row is ever produced,
against the claim's single message with the file in the manifest. -/
theorem c1_run_raises :
    parse_filename c1file c1cfg = Except.error attributeErrorStageKey ∧
    c1run = Except.error attributeErrorStageKey := by
  refine ⟨by decide, by decide⟩

/-- C2: `parse_filename` does raise.  On the named input the abort is the
AttributeError of the out-of-slots `stage_key` write at validators.py:110,
which fires on every pattern-matched filename before the sheet-range block
is reached.  Independently, the sheet-range block itself carries a second
latent crash: the per-component guard (validators.py:142-151) accepts
`0001-0002-0003` — every hyphen-split component is all digits of the
default width 4 — yet `normalize_sheet_range` (58-64) splits only on the
first hyphen, so its `int("0002-0003")` raises ValueError (modelled by its
`none` result); the claim's no-raise guarantee fails either way. -/
theorem c2_parse_filename_raises :
    parse_filename c2file c2cfg = Except.error attributeErrorStageKey ∧
    (strSplitOnChar '-' "0001-0002-0003").all pyIsDigit = true ∧
    normalize_sheet_range "0001-0002-0003" = none := by
  refine ⟨by decide, by decide, by decide⟩

theorem resolveStageLoop_eq_find (stage_name : String) (ci : Bool)
    (l : List (String × StageArtifacts)) :
    resolveStageLoop stage_name ci l =
      (match l.find? (fun p =>
          p.1 == stage_name || (ci && strLower p.1 == strLower stage_name)) with
       | some p => (some p.1, some p.2)
       | none => (none, none)) := by
  induction l with
  | nil => rfl
  | cons kv rest ih =>
    obtain ⟨k, sc⟩ := kv
    by_cases h1 : (k == stage_name) = true
    · simp [resolveStageLoop, List.find?_cons, h1]
    · by_cases h2 : (ci && strLower k == strLower stage_name) = true
      · simp [resolveStageLoop, List.find?_cons, h1, h2]
      · simp [resolveStageLoop, List.find?_cons, h1, h2, ih]

/-- C4 counterexample: for the token `Stage2` an exactly matching key
exists, yet with `stage_case_insensitive` set the resolver returns the
earlier case-insensitively matching entry `stage2`, so the exact key does
not win. -/
theorem c4_counterexample :
    (c4cfg.stages.map Prod.fst).contains "Stage2" = true ∧
    resolve_stage_config (some "Stage2") c4cfg =
      (some "stage2", some { discipline_codes := ["A"] }) ∧
    (resolve_stage_config (some "Stage2") c4cfg).1 ≠ some "Stage2" := by
  refine ⟨by decide, by decide, by decide⟩

/-- C4 (amended): the resolver scans the configured stages in declaration
order and returns the first entry whose key matches the token exactly or —
when `stage_case_insensitive` is set — case-insensitively; exactness is
preferred only within each entry, not across the dictionary.  A null or
empty token, or no matching entry, yields the absence `(none, none)`; the
resolver is a total function and never raises. -/
theorem c4_amended_first_match_resolution (stage_name : String) (config : Config) :
    resolve_stage_config (some stage_name) config =
      (if stage_name.data.isEmpty then (none, none)
       else
         match config.stages.find? (fun p =>
             p.1 == stage_name
             || (config.conventions.stage_case_insensitive
                  && strLower p.1 == strLower stage_name)) with
         | some p => (some p.1, some p.2)
         | none => (none, none)) := by
  unfold resolve_stage_config
  cases h : stage_name.data.isEmpty with
  | true => simp [optTruthy, h]
  | false => simp [optTruthy, h, optStr, resolveStageLoop_eq_find]

theorem rangeOf_c5mk (r : Int × Option Int) :
    rangeOf (c5mk r) = (r.1, pyOrInt r.2 r.1) := by
  obtain ⟨s, e⟩ := r
  cases e <;> simp [rangeOf, c5mk, pyOrInt]

theorem firstSeen_const_string (a : String) (l : List α) :
    firstSeen (l.map (fun _ => a)) = if l.isEmpty then [] else [a] := by
  induction l with
  | nil => rfl
  | cons x rest ih =>
    simp only [List.map_cons, firstSeen, ih]
    cases rest with
    | nil => simp [firstSeen]
    | cons y t => simp

/-- C5: overlap detection groups files having a discipline and a sheet
start by discipline, sorts each group by the `(start, end)` pair, and warns
once per adjacent sorted pair whose second start is at most the first end;
in particular the single-discipline ranges `[(1,3),(3,5)]` produce exactly
one warning-severity message and `[(1,3),(4,6)]` produce none. -/
theorem c5_overlap_adjacent_pairs :
    detect_duplicate_ranges [c5mk (1, some 3), c5mk (3, some 5)] =
      [⟨MessageLevel.warning,
        "Discipline ROAD has overlapping sheets (1, 3) and (3, 5)"⟩] ∧
    detect_duplicate_ranges [c5mk (1, some 3), c5mk (4, some 6)] = [] ∧
    ∀ (rs : List (Int × Option Int)),
      detect_duplicate_ranges (rs.map c5mk) =
        adjacentOverlapMsgs "ROAD"
          (sortLe pairLe (rs.map (fun r => (r.1, pyOrInt r.2 r.1)))) := by
  refine ⟨by decide, by decide, ?_⟩
  intro rs
  simp only [detect_duplicate_ranges]
  have hfil :
      (rs.map c5mk).filter (fun p => optTruthy p.discipline && p.sheet_start.isSome)
        = rs.map c5mk :=
    List.filter_eq_self.mpr (by
      intro p hp
      obtain ⟨r, _, hr⟩ := List.mem_map.mp hp
      subst hr
      rfl)
  rw [hfil]
  have hkeys : (rs.map c5mk).map (fun p => optStr p.discipline)
      = rs.map (fun _ => "ROAD") := by
    rw [List.map_map]
    rfl
  rw [hkeys, firstSeen_const_string]
  cases rs with
  | nil => rfl
  | cons r0 rest =>
    simp only [List.isEmpty_cons, if_neg (by simp : ¬((false : Bool) = true))]
    have hfil2 :
        ((r0 :: rest).map c5mk).filter (fun p => optStr p.discipline == "ROAD")
          = (r0 :: rest).map c5mk :=
      List.filter_eq_self.mpr (by
        intro p hp
        obtain ⟨r, _, hr⟩ := List.mem_map.mp hp
        subst hr
        rfl)
    simp only [List.flatMap_cons, List.flatMap_nil, List.append_nil, hfil2]
    rw [List.map_map]
    have : (rangeOf ∘ c5mk) = fun r : Int × Option Int => (r.1, pyOrInt r.2 r.1) := by
      funext r
      exact rangeOf_c5mk r
    rw [this]

/-- C6 counterexample: with width checking enabled (width 4) and the
sheet-range component `ABC` of digit length 3 ≠ 4 bound by the pattern, no
SheetWidthMismatch error is produced: the run aborts at the out-of-slots
`stage_key` write (validators.py:110) before the sheet-number loop, so the
component causes no message at all. -/
theorem c6_counterexample :
    parse_filename c6file c6cfg = Except.error attributeErrorStageKey ∧
    c6cfg.checks.sheet_numbering.enabled = true ∧
    (("ABC" : String).length : Int) ≠ c6cfg.checks.sheet_numbering.width := by
  refine ⟨by decide, by decide, by decide⟩

/-- C6 (amended): no sheet-number message is ever emitted for a
pattern-matched filename — `parse_filename` raises AttributeError at the
`stage_key` write before the sheet-number loop, as the all-digit
wrong-width instance `00001` also shows.  The loop body itself
(validators.py:142-159, embedded per component as `sheetComponentStep`)
emits at most one message per component occurrence: NonNumericSheet for a
non-digit component, with the `continue` skipping the width check, and
SheetWidthMismatch only for an all-digit component of the wrong length when
the check is enabled with a non-zero width — never both for the same
component, so the two checks are not independent. -/
theorem c6_amended_width_check_digits_only :
    parse_filename c6wfile c6wcfg = Except.error attributeErrorStageKey ∧
    (∀ (nc : SheetNumberingValidationConfig) (name component : String),
        ([component].foldl (sheetComponentStep nc name) ([], false)).1
          = c6stepMsgs nc name component) ∧
    (∀ (nc : SheetNumberingValidationConfig) (name component : String),
        (c6stepMsgs nc name component).length ≤ 1) := by
  refine ⟨by decide, ?_, ?_⟩
  · intro nc name component
    show (sheetComponentStep nc name ([], false) component).1 = _
    unfold sheetComponentStep c6stepMsgs
    split
    · rfl
    · split <;> rfl
  · intro nc name component
    unfold c6stepMsgs
    split
    · simp
    · split <;> simp

/-- C7: when the convention forbids spaces and the base name contains one,
parsing short-circuits to a null record with exactly the SpaceNotAllowed
error — for every configuration, so no pattern matching or field extraction
can influence the outcome — and manifest building keeps the message but
produces no manifest entry and no parsed record for the file. -/
theorem c7_space_short_circuit (path : String) (config : Config)
    (stage_config : Option StageArtifacts) (oracle : FileOracle)
    (h1 : config.conventions.allow_spaces = false)
    (h2 : strContainsChar (pathName path) ' ' = true)
    (h3 : config.checks.pdf_text_scan.enabled = false) :
    parse_filename path config = Except.ok (none, [spaceMsg (pathName path)]) ∧
    build_manifest [path] config stage_config oracle =
      Except.ok ([], [spaceMsg (pathName path)], []) := by
  have hp : parse_filename path config = Except.ok (none, [spaceMsg (pathName path)]) := by
    unfold parse_filename
    simp [h1, h2]
  refine ⟨hp, ?_⟩
  unfold build_manifest
  simp [h3, buildManifestStep, hp]

theorem c7_witness :
    c7cfg.conventions.allow_spaces = false ∧
    strContainsChar (pathName "bad file.pdf") ' ' = true ∧
    c7cfg.checks.pdf_text_scan.enabled = false ∧
    (parse_filename "bad file.pdf" c7cfg
        = Except.ok (none, [spaceMsg (pathName "bad file.pdf")]) ∧
      build_manifest ["bad file.pdf"] c7cfg none inertOracle
        = Except.ok ([], [spaceMsg (pathName "bad file.pdf")], [])) :=
  ⟨by decide, by decide, by decide,
    c7_space_short_circuit "bad file.pdf" c7cfg none inertOracle
      (by decide) (by decide) (by decide)⟩

theorem resolveStageLoop_shape (s : String) (ci : Bool)
    (l : List (String × StageArtifacts)) :
    (∃ k sc, resolveStageLoop s ci l = (some k, some sc)) ∨
    resolveStageLoop s ci l = (none, none) := by
  induction l with
  | nil => exact Or.inr rfl
  | cons kv rest ih =>
    obtain ⟨k, sc⟩ := kv
    unfold resolveStageLoop
    split
    · exact Or.inl ⟨k, sc, rfl⟩
    · split
      · exact Or.inl ⟨k, sc, rfl⟩
      · exact ih

theorem resolve_stage_config_shape (o : Option String) (config : Config) :
    (∃ k sc, resolve_stage_config o config = (some k, some sc)) ∨
    resolve_stage_config o config = (none, none) := by
  unfold resolve_stage_config
  split
  · exact Or.inr rfl
  · exact resolveStageLoop_shape (optStr o) config.conventions.stage_case_insensitive
      config.stages

/-- C3 counterexample: validating the unconfigured stage `Nope` with
`strict := true` returns before strict escalation, so the missing-keyword
warning stays in the warnings list — the strict run does not leave the
warnings list empty. -/
theorem c3_counterexample :
    runWarnings (validate_directory [] c3cfg "Nope" true inertOracle) =
      [⟨MessageLevel.warning, "Missing required keywords across submission: REQUIRED"⟩] ∧
    runWarnings (validate_directory [] c3cfg "Nope" true inertOracle) ≠ [] := by
  refine ⟨by decide, by decide⟩

/-- C3 (amended): for identical inputs, the strict run equals the
non-strict run post-processed by the escalation step exactly when the
validated stage resolves and warnings exist: every warning is then moved
(text preserved) to the end of the errors list and the warnings list is
cleared, so the total message count never changes and nothing ever moves
from errors to warnings.  When the stage does not resolve, the early
return skips escalation and the two runs coincide. -/
theorem c3_amended_strict_moves_warnings (files : List String) (config : Config)
    (stage : String) (oracle : FileOracle) :
    validate_directory files config stage true oracle =
      (validate_directory files config stage false oracle).map
        (fun r =>
          if (resolve_stage_config (some stage) config).1.isSome && r.has_warnings then
            escalateStrict r
          else r) := by
  simp only [validate_directory]
  rcases resolve_stage_config_shape (some stage) config with ⟨k, sc, hk⟩ | hk <;>
    simp only [hk]
  · cases hbm : build_manifest files config (some sc) oracle with
    | error e => simp [Except.map]
    | ok t =>
      obtain ⟨entries, msgs, recs⟩ := t
      cases hdc : validate_discipline_codes recs k (some sc) config with
      | error e => simp [Except.map, hdc]
      | ok discipline_messages => simp [Except.map, hdc]
  · cases hbm : build_manifest files config none oracle with
    | error e => simp [Except.map]
    | ok t =>
      obtain ⟨entries, msgs, recs⟩ := t
      simp [Except.map]

theorem dictShape_congr {keys : List String} {v1 v2 : String → List String}
    (h : ∀ k ∈ keys, v1 k = v2 k) : dictShape keys v1 = dictShape keys v2 :=
  List.map_congr_left (fun k hk => by rw [h k hk])

theorem dictAppend_shape (keys : List String) (v : String → List String)
    (key file : String) :
    dictAppend (dictShape keys v) key file
      = dictShape keys (fun k => if k == key then v k ++ [file] else v k) := by
  unfold dictAppend dictShape
  rw [List.map_map]
  refine List.map_congr_left ?_
  intro k _
  by_cases h : k = key
  · subst h
    simp
  · simp [beq_eq_false_iff_ne.mpr h, h]

theorem innerFold_shape (file : String) (reqs : List RequirementConfig)
    (keys : List String) (v : String → List String) :
    reqs.foldl
        (fun d req => if reqMatches file req then dictAppend d req.key file else d)
        (dictShape keys v)
      = dictShape keys (fun k => v k ++ appendsFor file reqs k) := by
  induction reqs generalizing v with
  | nil => exact dictShape_congr (by intro k _; simp [appendsFor])
  | cons r rest ih =>
    simp only [List.foldl_cons]
    by_cases hm : reqMatches file r = true
    · rw [if_pos hm, dictAppend_shape, ih]
      refine dictShape_congr ?_
      intro k _
      by_cases hk : k = r.key
      · subst hk
        simp [appendsFor, List.filter_cons, hm]
      · have h1 : (k == r.key) = false := beq_eq_false_iff_ne.mpr hk
        have h2 : (r.key == k) = false := beq_eq_false_iff_ne.mpr (Ne.symm hk)
        simp [appendsFor, List.filter_cons, h1, h2]
    · rw [if_neg hm, ih]
      refine dictShape_congr ?_
      intro k _
      have hm2 : reqMatches file r = false := by
        cases hmm : reqMatches file r
        · rfl
        · exact absurd hmm hm
      simp [appendsFor, List.filter_cons, hm2]

theorem outerFold_shape (files : List String) (reqs : List RequirementConfig)
    (keys : List String) (v : String → List String) :
    files.foldl
        (fun d file =>
          reqs.foldl
            (fun d req => if reqMatches file req then dictAppend d req.key file else d)
            d)
        (dictShape keys v)
      = dictShape keys (fun k => v k ++ files.flatMap (fun f => appendsFor f reqs k)) := by
  induction files generalizing v with
  | nil => exact dictShape_congr (by intro k _; simp)
  | cons f rest ih =>
    simp only [List.foldl_cons]
    rw [innerFold_shape, ih]
    exact dictShape_congr (by intro k _; simp [List.flatMap_cons, List.append_assoc])

theorem find_required_artifacts_shape (files : List String)
    (reqs : List RequirementConfig) :
    find_required_artifacts files reqs
      = dictShape (firstSeen (reqs.map (fun r => r.key)))
          (fun k => files.flatMap (fun f => appendsFor f reqs k)) := by
  unfold find_required_artifacts
  have hinit :
      (firstSeen (reqs.map (fun req => req.key))).map (fun k => (k, ([] : List String)))
        = dictShape (firstSeen (reqs.map (fun r => r.key))) (fun _ => []) := rfl
  rw [hinit, outerFold_shape]
  exact dictShape_congr (by intro k _; simp)

theorem missing_foldl (d : List (String × List String)) (acc : List ValidationMessage) :
    d.foldl
        (fun messages kv =>
          if kv.2.isEmpty then
            messages ++ [⟨MessageLevel.error, "Missing required artifact: " ++ kv.1⟩]
          else messages)
        acc
      = acc ++ d.filterMap
          (fun kv =>
            if kv.2.isEmpty then
              some ⟨MessageLevel.error, "Missing required artifact: " ++ kv.1⟩
            else none) := by
  induction d generalizing acc with
  | nil => simp
  | cons kv rest ih =>
    simp only [List.foldl_cons, List.filterMap_cons]
    by_cases h : kv.2.isEmpty = true
    · rw [if_pos h, ih]
      simp [h]
    · rw [if_neg h, ih]
      simp [h]

theorem isEmpty_append (l1 l2 : List β) :
    (l1 ++ l2).isEmpty = (l1.isEmpty && l2.isEmpty) := by
  cases l1 <;> simp [List.isEmpty]

theorem isEmpty_flatMap (g : α → List β) (l : List α) :
    (l.flatMap g).isEmpty = l.all (fun a => (g a).isEmpty) := by
  induction l with
  | nil => rfl
  | cons a rest ih => simp [List.flatMap_cons, isEmpty_append, ih]

theorem isEmpty_appendsFor (file : String) (reqs : List RequirementConfig) (k : String) :
    (appendsFor file reqs k).isEmpty
      = !(reqs.any (fun req => req.key == k && reqMatches file req)) := by
  unfold appendsFor
  induction reqs with
  | nil => rfl
  | cons r rest ih =>
    rw [List.filter_cons, List.any_cons]
    by_cases h : (r.key == k && reqMatches file r) = true
    · rw [if_pos h, h]
      simp
    · have h2 : (r.key == k && reqMatches file r) = false := by
        cases hh : (r.key == k && reqMatches file r)
        · rfl
        · exact absurd hh h
      rw [if_neg (by simp [h2]), h2, Bool.false_or]
      exact ih

theorem all_not_any (p : α → Bool) (l : List α) :
    (l.all fun a => !(p a)) = !(l.any p) := by
  induction l with
  | nil => rfl
  | cons a rest ih => simp [List.all_cons, List.any_cons, ih]

theorem isEmpty_flatMap_appendsFor (files : List String)
    (reqs : List RequirementConfig) (k : String) :
    (files.flatMap (fun f => appendsFor f reqs k)).isEmpty
      = !(files.any (fun file =>
            reqs.any (fun req => req.key == k && reqMatches file req))) := by
  rw [isEmpty_flatMap]
  have h1 : (files.all fun f => (appendsFor f reqs k).isEmpty)
      = (files.all fun f => !(reqs.any fun req => req.key == k && reqMatches f req)) := by
    induction files with
    | nil => rfl
    | cons f rest ih => rw [List.all_cons, List.all_cons, isEmpty_appendsFor, ih]
  rw [h1, all_not_any]

/-- C8: for every file list and requirement list, the required-artifact
validation emits exactly one missing-artifact error per requirement key
(first-seen key order) having no file whose base name matches, upper-cased,
at least one `|`-separated, stripped glob sub-pattern of a requirement with
that key (`reqMatches`); and optional requirements never produce any
message: an entire validation run — a crash-free one, on the source's
rejected-file path — returns the identical result under every choice of
the optional list, matched or unmatched, with the one missing-artifact
error for the unmatched required key and none for any optional key. -/
theorem c8_requirement_satisfaction :
    (∀ (files : List String) (reqs : List RequirementConfig),
        validate_required files reqs
          = (firstSeen (reqs.map (fun r => r.key))).filterMap
              (fun key =>
                if files.any (fun file =>
                    reqs.any (fun req => req.key == key && reqMatches file req)) then
                  none
                else some ⟨MessageLevel.error, "Missing required artifact: " ++ key⟩)) ∧
    (∀ optional : List RequirementConfig,
        validate_directory [c8badfile] (c8cfg optional) "Stage2" false inertOracle
          = Except.ok
              { manifest := []
                errors := [patternMismatchMsg c8badfile,
                           ⟨MessageLevel.error, "Missing required artifact: title_sheet"⟩]
                warnings := [] }) := by
  constructor
  · intro files reqs
    unfold validate_required
    rw [find_required_artifacts_shape, missing_foldl, List.nil_append]
    unfold dictShape
    rw [List.filterMap_map]
    refine List.filterMap_congr ?_
    intro k _
    simp only [Function.comp_apply]
    rw [isEmpty_flatMap_appendsFor]
    cases hx : files.any (fun file =>
        reqs.any (fun req => req.key == k && reqMatches file req)) <;>
      simp [hx]
  · intro optional
    rfl

end SubmittalPackager
